import Mathlib

/-!
# ZITADEL user service (v2) and organisation IDP events

A shallow embedding of

* `internal/api/grpc/user/v2/user.go`: `addUserRequestToAddHuman`, `genderToDomain`,
  `hashedPasswordToCommand`, `RetrieveIdentityProviderInformation`,
  `intentToIDPInformationPb`, `checkIntentToken`;
* `internal/repository/org/idp.go`: the eleven event type constants and the
  eleven event constructors.

Go strings are byte sequences and are embedded as `List Byte`.  Functions of other
packages (`command`, `crypto`, `domain`, `idp`, `eventstore`, `language`) are taken as
parameters; the two functions of Go's `encoding/base64` that the token check relies
on are embedded concretely for `RawURLEncoding`.
-/

set_option linter.dupNamespace false

namespace Zitadel

/-! ## Bytes and strings -/

/-- A Go `byte`. -/
abbrev Byte := Fin 256

/-- A Go `string` (and equally a `[]byte`): a finite sequence of bytes. -/
abbrev GoString := List Byte

/-- The conversion `byte(n)` of an unsigned integer: truncation to eight bits. -/
def toByte (n : Nat) : Byte := ⟨n % 256, Nat.mod_lt n (by decide)⟩

/-- The bytes of an ASCII literal, used to write string constants. -/
def ascii (s : String) : GoString := s.toList.map (fun c => toByte c.toNat)

/-! ## Errors (`internal/errors`) -/

/-- The error kinds of `internal/errors`; each `ThrowX` builds an error of kind `X`. -/
inductive ErrorKind where
  | AlreadyExists
  | DeadlineExceeded
  | Internal
  | InvalidArgument
  | NotFound
  | PermissionDenied
  | PreconditionFailed
  | Unauthenticated
  | Unavailable
  | Unimplemented
  | ResourceExhausted
  deriving DecidableEq, Repr

/-- A Go `error` value: either an error of `internal/errors` (kind, optional parent,
id and message) or an error value of some other library. -/
inductive Error where
  | foreign (text : String)
  | caos (kind : ErrorKind) (parent : Option Error) (id : String) (message : String)

/-- The kind of an error, if it is one of `internal/errors`. -/
def Error.kind? : Error → Option ErrorKind
  | .foreign _ => none
  | .caos k _ _ _ => some k

/-- The check `errors.IsPermissionDenied`. -/
def IsPermissionDenied (e : Error) : Prop := e.kind? = some ErrorKind.PermissionDenied

/-- The check `errors.IsPreconditionFailed`. -/
def IsPreconditionFailed (e : Error) : Prop := e.kind? = some ErrorKind.PreconditionFailed

/-- The check `errors.IsErrorInvalidArgument`. -/
def IsErrorInvalidArgument (e : Error) : Prop := e.kind? = some ErrorKind.InvalidArgument

instance (e : Error) : Decidable (IsPermissionDenied e) := by
  unfold IsPermissionDenied; infer_instance

instance (e : Error) : Decidable (IsPreconditionFailed e) := by
  unfold IsPreconditionFailed; infer_instance

instance (e : Error) : Decidable (IsErrorInvalidArgument e) := by
  unfold IsErrorInvalidArgument; infer_instance

def ThrowPermissionDenied (parent : Option Error) (id message : String) : Error :=
  .caos .PermissionDenied parent id message

def ThrowPreconditionFailed (parent : Option Error) (id message : String) : Error :=
  .caos .PreconditionFailed parent id message

def ThrowInvalidArgument (parent : Option Error) (id message : String) : Error :=
  .caos .InvalidArgument parent id message

/-! ## `encoding/base64`, `RawURLEncoding` -/

/-- The URL-safe alphabet `encodeURL` of `encoding/base64`. -/
def encodeURL : List Byte :=
  ascii "ABCDEFGHIJKLMNOPQRSTUVWXYZabcdefghijklmnopqrstuvwxyz0123456789-_"

/-- The lookup `enc.encode[i]`. -/
def encodeAt (i : Nat) : Byte := encodeURL.getD i 0

/-- The table `enc.decodeMap`: the index of a byte in the alphabet, `0xff` for a byte
outside it. -/
def decodeMap (b : Byte) : Nat :=
  if encodeURL.indexOf b < 64 then encodeURL.indexOf b else 0xff

/-- The method `Encoding.EncodeToString` for `RawURLEncoding` (no padding): full groups of
three bytes give four characters, a remainder of two bytes three characters, and a
remainder of one byte two characters. -/
def EncodeToString : List Byte → GoString
  | a :: b :: c :: rest =>
    let val := a.val <<< 16 ||| b.val <<< 8 ||| c.val
    encodeAt (val >>> 18 &&& 0x3F) :: encodeAt (val >>> 12 &&& 0x3F) ::
      encodeAt (val >>> 6 &&& 0x3F) :: encodeAt (val &&& 0x3F) :: EncodeToString rest
  | [a, b] =>
    let val := a.val <<< 16 ||| b.val <<< 8
    [encodeAt (val >>> 18 &&& 0x3F), encodeAt (val >>> 12 &&& 0x3F),
      encodeAt (val >>> 6 &&& 0x3F)]
  | [a] =>
    let val := a.val <<< 16
    [encodeAt (val >>> 18 &&& 0x3F), encodeAt (val >>> 12 &&& 0x3F)]
  | [] => []

/-- The error value `base64.CorruptInputError` (its offset is not recorded). -/
def CorruptInputError : Error := .foreign "illegal base64 data"

/-- The bytes a quantum of `dlen` collected six-bit values yields in
`Encoding.decodeQuantum` (non-strict): `dlen - 1` bytes of the 24-bit value. -/
def quantumBytes (dbuf : List Nat) : List Byte :=
  let val := dbuf.getD 0 0 <<< 18 ||| dbuf.getD 1 0 <<< 12 ||| dbuf.getD 2 0 <<< 6 |||
    dbuf.getD 3 0
  ([toByte (val >>> 16), toByte (val >>> 8), toByte (val >>> 0)]).take (dbuf.length - 1)

/-- The loop of `Encoding.Decode` over `Encoding.decodeQuantum` for `RawURLEncoding`
(no padding character, non-strict).  `dbuf` holds the six-bit values collected for the
current quantum (`j = dbuf.length`).  A byte of the alphabet is collected; `\n` and
`\r` are skipped; any other byte is corrupt input.  A full quantum yields three bytes;
at the end of the input an empty quantum yields nothing, a quantum of one value is
corrupt input, and a quantum of two or three values yields one or two bytes. -/
def decodeLoop : List Byte → List Nat → Except Error (List Byte)
  | [], dbuf =>
    if dbuf.length = 0 then .ok []
    else if dbuf.length = 1 then .error CorruptInputError
    else .ok (quantumBytes dbuf)
  | c :: src, dbuf =>
    if decodeMap c ≠ 0xff then
      if dbuf.length + 1 = 4 then
        match decodeLoop src [] with
        | .ok out => .ok (quantumBytes (dbuf ++ [decodeMap c]) ++ out)
        | .error e => .error e
      else decodeLoop src (dbuf ++ [decodeMap c])
    else if c = 10 ∨ c = 13 then decodeLoop src dbuf
    else .error CorruptInputError

/-- The method `Encoding.DecodeString` for `RawURLEncoding`. -/
def DecodeString (s : GoString) : Except Error (List Byte) := decodeLoop s []

/-! ## `crypto.EncryptionAlgorithm` -/

/-- The methods of the interface `crypto.EncryptionAlgorithm` used by this package.
`Encrypt` takes, besides the value, the bytes the implementation draws from its source
of randomness. -/
structure EncryptionAlgorithm where
  Algorithm : GoString
  EncryptionKeyID : GoString
  DecryptionKeyIDs : List GoString
  Encrypt : (entropy : List Byte) → (value : List Byte) → Except Error (List Byte)
  Decrypt : (hashed : List Byte) → (keyID : GoString) → Except Error (List Byte)

/-! ## `checkIntentToken` -/

/-- The method `Server.checkIntentToken` (user.go, lines 197-213); `alg` is `s.idpAlg`. The result
is the returned `error`, `none` for `nil`. -/
def checkIntentToken (alg : EncryptionAlgorithm) (token : GoString) (intentID : GoString) :
    Option Error :=
  if token = [] then
    some (ThrowPermissionDenied none "IDP-Sfefs" "Errors.Intent.InvalidToken")
  else
    match DecodeString token with
    | .error err => some (ThrowPermissionDenied (some err) "IDP-Swg31" "Errors.Intent.InvalidToken")
    | .ok data =>
      match alg.Decrypt data alg.EncryptionKeyID with
      | .error err =>
        some (ThrowPermissionDenied (some err) "IDP-Sf4gt" "Errors.Intent.InvalidToken")
      | .ok decryptedToken =>
        if decryptedToken ≠ intentID then
          some (ThrowPermissionDenied none "IDP-dkje3" "Errors.Intent.InvalidToken")
        else none

/-! ## Protobuf messages of `pkg/grpc/user/v2alpha` and their getters

A message pointer is an `Option`; every getter is nil-tolerant and returns the zero value
of the field on a nil receiver or an unset optional field. -/

structure Password where
  Password : GoString
  ChangeRequired : Bool
  deriving DecidableEq

structure HashedPassword where
  Hash : GoString
  ChangeRequired : Bool
  Algorithm : GoString
  deriving DecidableEq

structure SendEmailVerificationCode where
  UrlTemplate : Option GoString
  deriving DecidableEq

structure SetHumanEmail where
  Email : GoString
  SendCode : Option SendEmailVerificationCode
  ReturnCode : Option Unit
  IsVerified : Bool
  deriving DecidableEq

/-- The enum `user.Gender`, an `int32`. -/
abbrev Gender := Int

def Gender_GENDER_UNSPECIFIED : Gender := 0

def Gender_GENDER_FEMALE : Gender := 1

def Gender_GENDER_MALE : Gender := 2

def Gender_GENDER_DIVERSE : Gender := 3

structure SetHumanProfile where
  FirstName : GoString
  LastName : GoString
  NickName : Option GoString
  DisplayName : Option GoString
  PreferredLanguage : Option GoString
  Gender : Option Zitadel.Gender
  deriving DecidableEq

structure SetMetadataEntry where
  Key : GoString
  Value : List Byte
  deriving DecidableEq

structure IDPLink where
  IdpId : GoString
  IdpExternalId : GoString
  DisplayName : GoString
  deriving DecidableEq

/-- The message `user.AddHumanUserRequest`.  The password and the hashed password are kept as
two independent optional fields, which covers every value the getters can return. -/
structure AddHumanUserRequest where
  UserId : Option GoString
  Username : Option GoString
  Profile : Option SetHumanProfile
  Email : Option SetHumanEmail
  Metadata : List (Option SetMetadataEntry)
  Password : Option Zitadel.Password
  HashedPassword : Option Zitadel.HashedPassword
  IdpLinks : List (Option IDPLink)
  deriving DecidableEq

def Password.GetPassword (x : Option Zitadel.Password) : GoString :=
  match x with
  | some p => p.Password
  | none => []

def Password.GetChangeRequired (x : Option Zitadel.Password) : Bool :=
  match x with
  | some p => p.ChangeRequired
  | none => false

def HashedPassword.GetHash (x : Option Zitadel.HashedPassword) : GoString :=
  match x with
  | some h => h.Hash
  | none => []

def HashedPassword.GetChangeRequired (x : Option Zitadel.HashedPassword) : Bool :=
  match x with
  | some h => h.ChangeRequired
  | none => false

def HashedPassword.GetAlgorithm (x : Option Zitadel.HashedPassword) : GoString :=
  match x with
  | some h => h.Algorithm
  | none => []

def SendEmailVerificationCode.GetUrlTemplate (x : Option SendEmailVerificationCode) : GoString :=
  match x with
  | some c => c.UrlTemplate.getD []
  | none => []

def SetHumanEmail.GetEmail (x : Option SetHumanEmail) : GoString :=
  match x with
  | some e => e.Email
  | none => []

def SetHumanEmail.GetSendCode (x : Option SetHumanEmail) : Option SendEmailVerificationCode :=
  match x with
  | some e => e.SendCode
  | none => none

def SetHumanEmail.GetReturnCode (x : Option SetHumanEmail) : Option Unit :=
  match x with
  | some e => e.ReturnCode
  | none => none

def SetHumanEmail.GetIsVerified (x : Option SetHumanEmail) : Bool :=
  match x with
  | some e => e.IsVerified
  | none => false

def SetHumanProfile.GetFirstName (x : Option SetHumanProfile) : GoString :=
  match x with
  | some p => p.FirstName
  | none => []

def SetHumanProfile.GetLastName (x : Option SetHumanProfile) : GoString :=
  match x with
  | some p => p.LastName
  | none => []

def SetHumanProfile.GetNickName (x : Option SetHumanProfile) : GoString :=
  match x with
  | some p => p.NickName.getD []
  | none => []

def SetHumanProfile.GetDisplayName (x : Option SetHumanProfile) : GoString :=
  match x with
  | some p => p.DisplayName.getD []
  | none => []

def SetHumanProfile.GetPreferredLanguage (x : Option SetHumanProfile) : GoString :=
  match x with
  | some p => p.PreferredLanguage.getD []
  | none => []

def SetHumanProfile.GetGender (x : Option SetHumanProfile) : Zitadel.Gender :=
  match x with
  | some p => p.Gender.getD Gender_GENDER_UNSPECIFIED
  | none => Gender_GENDER_UNSPECIFIED

def SetMetadataEntry.GetKey (x : Option SetMetadataEntry) : GoString :=
  match x with
  | some m => m.Key
  | none => []

def SetMetadataEntry.GetValue (x : Option SetMetadataEntry) : List Byte :=
  match x with
  | some m => m.Value
  | none => []

def IDPLink.GetIdpId (x : Option IDPLink) : GoString :=
  match x with
  | some l => l.IdpId
  | none => []

def IDPLink.GetIdpExternalId (x : Option IDPLink) : GoString :=
  match x with
  | some l => l.IdpExternalId
  | none => []

def IDPLink.GetDisplayName (x : Option IDPLink) : GoString :=
  match x with
  | some l => l.DisplayName
  | none => []

def AddHumanUserRequest.GetUserId (req : AddHumanUserRequest) : GoString := req.UserId.getD []

def AddHumanUserRequest.GetUsername (req : AddHumanUserRequest) : GoString :=
  req.Username.getD []

def AddHumanUserRequest.GetProfile (req : AddHumanUserRequest) : Option SetHumanProfile :=
  req.Profile

def AddHumanUserRequest.GetEmail (req : AddHumanUserRequest) : Option SetHumanEmail := req.Email

def AddHumanUserRequest.GetPassword (req : AddHumanUserRequest) :
    Option Zitadel.Password :=
  req.Password

def AddHumanUserRequest.GetHashedPassword (req : AddHumanUserRequest) :
    Option Zitadel.HashedPassword :=
  req.HashedPassword

def AddHumanUserRequest.GetIdpLinks (req : AddHumanUserRequest) : List (Option IDPLink) :=
  req.IdpLinks

/-! ## Types of `internal/domain` and `internal/command` -/

/-- The enum `domain.Gender`. -/
inductive DomainGender where
  | GenderUnspecified
  | GenderFemale
  | GenderMale
  | GenderDiverse
  deriving DecidableEq, Repr

structure AddMetadataEntry where
  Key : GoString
  Value : List Byte
  deriving DecidableEq

structure AddLink where
  IDPID : GoString
  IDPExternalID : GoString
  DisplayName : GoString
  deriving DecidableEq

/-- The struct `command.Email`; `Address` is a `domain.EmailAddress`, a string type. -/
structure Email where
  Address : GoString
  Verified : Bool
  ReturnCode : Bool
  URLTemplate : GoString
  deriving DecidableEq

/-- The struct `command.Phone`; the request converter only ever builds its zero value. -/
structure Phone where
  Number : GoString
  Verified : Bool
  ReturnCode : Bool
  deriving DecidableEq

/-- The fields of `command.AddHuman` that `addUserRequestToAddHuman` sets; `Tag` is
`language.Tag`. -/
structure AddHuman (Tag : Type) where
  ID : GoString
  Username : GoString
  FirstName : GoString
  LastName : GoString
  NickName : GoString
  DisplayName : GoString
  Email : Email
  PreferredLanguage : Tag
  Gender : DomainGender
  Phone : Phone
  Password : GoString
  BcryptedPassword : GoString
  PasswordChangeRequired : Bool
  Passwordless : Bool
  Register : Bool
  Metadata : List AddMetadataEntry
  Links : List AddLink

/-! ## `hashedPasswordToCommand`, `genderToDomain`, `addUserRequestToAddHuman` -/

/-- The function `genderToDomain` (user.go, lines 97-110). -/
def genderToDomain (gender : Gender) : DomainGender :=
  if gender = Gender_GENDER_UNSPECIFIED then .GenderUnspecified
  else if gender = Gender_GENDER_FEMALE then .GenderFemale
  else if gender = Gender_GENDER_MALE then .GenderMale
  else if gender = Gender_GENDER_DIVERSE then .GenderDiverse
  else .GenderUnspecified

/-- The function `hashedPasswordToCommand` (user.go, lines 112-121).  The result is the returned pair
`(string, error)`, the error being `none` for `nil`. -/
def hashedPasswordToCommand (hashed : Option HashedPassword) : GoString × Option Error :=
  if hashed = none then ([], none)
  else if HashedPassword.GetAlgorithm hashed ≠ ascii "bcrypt" then
    ([], some (ThrowInvalidArgument none "USER-JDk4t" "Errors.InvalidArgument"))
  else (HashedPassword.GetHash hashed, none)

/-- The function `addUserRequestToAddHuman` (user.go, lines 38-95).  `RenderConfirmURLTemplate` is
`domain.RenderConfirmURLTemplate` applied to `io.Discard` (arguments: template, user id,
code, organisation id; result: the returned error) and `languageMake` is `language.Make`. -/
def addUserRequestToAddHuman {Tag : Type}
    (RenderConfirmURLTemplate : GoString → GoString → GoString → GoString → Option Error)
    (languageMake : GoString → Tag) (req : AddHumanUserRequest) : Except Error (AddHuman Tag) :=
  let username :=
    if req.GetUsername = [] then SetHumanEmail.GetEmail req.GetEmail else req.GetUsername
  let rendered : Except Error GoString :=
    if SetHumanEmail.GetSendCode req.GetEmail ≠ none then
      let urlTemplate :=
        SendEmailVerificationCode.GetUrlTemplate (SetHumanEmail.GetSendCode req.GetEmail)
      match RenderConfirmURLTemplate urlTemplate req.GetUserId (ascii "code") (ascii "orgID") with
      | some err => .error err
      | none => .ok urlTemplate
    else .ok []
  match rendered with
  | .error err => .error err
  | .ok urlTemplate =>
    match hashedPasswordToCommand req.GetHashedPassword with
    | (_, some err) => .error err
    | (bcryptedPassword, none) =>
      let passwordChangeRequired :=
        Password.GetChangeRequired req.GetPassword ||
          HashedPassword.GetChangeRequired req.GetHashedPassword
      let metadata := req.Metadata.map fun metadataEntry =>
        { Key := SetMetadataEntry.GetKey metadataEntry,
          Value := SetMetadataEntry.GetValue metadataEntry : AddMetadataEntry }
      let links := req.GetIdpLinks.map fun link =>
        { IDPID := IDPLink.GetIdpId link,
          IDPExternalID := IDPLink.GetIdpExternalId link,
          DisplayName := IDPLink.GetDisplayName link : AddLink }
      .ok {
        ID := req.GetUserId
        Username := username
        FirstName := SetHumanProfile.GetFirstName req.GetProfile
        LastName := SetHumanProfile.GetLastName req.GetProfile
        NickName := SetHumanProfile.GetNickName req.GetProfile
        DisplayName := SetHumanProfile.GetDisplayName req.GetProfile
        Email := {
          Address := SetHumanEmail.GetEmail req.GetEmail
          Verified := SetHumanEmail.GetIsVerified req.GetEmail
          ReturnCode := SetHumanEmail.GetReturnCode req.GetEmail ≠ none
          URLTemplate := urlTemplate }
        PreferredLanguage := languageMake (SetHumanProfile.GetPreferredLanguage req.GetProfile)
        Gender := genderToDomain (SetHumanProfile.GetGender req.GetProfile)
        Phone := { Number := [], Verified := false, ReturnCode := false }
        Password := Password.GetPassword req.GetPassword
        BcryptedPassword := bcryptedPassword
        PasswordChangeRequired := passwordChangeRequired
        Passwordless := false
        Register := false
        Metadata := metadata
        Links := links }

/-! ## The intent write model and `RetrieveIdentityProviderInformation` -/

/-- Modelled from the spec: the type `crypto.CryptoValue` is declared outside the embedded
files; its shape is the one of the spec, `{algorithm, keyID, ciphertext}`. -/
structure CryptoValue where
  Algorithm : GoString
  KeyID : GoString
  Crypted : List Byte
  deriving DecidableEq

/-- Modelled from the spec: the type `domain.IDPIntentState` is declared outside the
embedded files; the spec gives the states `Created`, `Succeeded` and `Failed`. -/
inductive IDPIntentState where
  | Created
  | Succeeded
  | Failed
  deriving DecidableEq, Repr

def IDPIntentStateSucceeded : IDPIntentState := .Succeeded

/-- A `time.Time`, as the seconds and nanoseconds `timestamppb.New` reads from it. -/
structure Time where
  seconds : Int
  nanos : Int
  deriving DecidableEq

/-- The fields of `command.IDPIntentWriteModel` read by this package. -/
structure IDPIntentWriteModel where
  AggregateID : GoString
  ProcessedSequence : Nat
  ResourceOwner : GoString
  ChangeDate : Time
  IDPUser : List Byte
  IDPAccessToken : Option CryptoValue
  IDPIDToken : GoString
  State : IDPIntentState
  deriving DecidableEq

/-- The message `object.Details`, with the fields set here. -/
structure Details where
  Sequence : Nat
  ChangeDate : Time
  ResourceOwner : GoString
  deriving DecidableEq

/-- The message `user.IDPOAuthAccessInformation`. -/
structure IDPOAuthAccessInformation where
  AccessToken : GoString
  IdToken : Option GoString
  deriving DecidableEq

/-- The message `user.IDPInformation`; `Oauth` is its `Access` variant `IDPInformation_Oauth`. -/
structure IDPInformation where
  Oauth : IDPOAuthAccessInformation
  IdpInformation : List Byte
  deriving DecidableEq

structure RetrieveIdentityProviderInformationResponse where
  Details : Details
  IdpInformation : IDPInformation
  deriving DecidableEq

structure RetrieveIdentityProviderInformationRequest where
  IntentId : GoString
  Token : GoString
  deriving DecidableEq

/-- The function `timestamppb.New`. -/
def timestamppbNew (t : Time) : Time := t

/-- The function `intentToIDPInformationPb` (user.go, lines 167-195).  `DecryptString` is
`crypto.DecryptString`. -/
def intentToIDPInformationPb
    (DecryptString : CryptoValue → EncryptionAlgorithm → Except Error GoString)
    (intent : IDPIntentWriteModel) (alg : EncryptionAlgorithm) :
    Except Error RetrieveIdentityProviderInformationResponse :=
  let idToken : Option GoString := if intent.IDPIDToken ≠ [] then some intent.IDPIDToken else none
  let decrypted : Except Error GoString :=
    match intent.IDPAccessToken with
    | some value => DecryptString value alg
    | none => .ok []
  match decrypted with
  | .error err => .error err
  | .ok accessToken =>
    .ok {
      Details := {
        Sequence := intent.ProcessedSequence
        ChangeDate := timestamppbNew intent.ChangeDate
        ResourceOwner := intent.ResourceOwner }
      IdpInformation := {
        Oauth := { AccessToken := accessToken, IdToken := idToken }
        IdpInformation := intent.IDPUser } }

/-- The request context, as the data `authz.GetCtxData` reads from it. -/
structure CtxData where
  UserID : GoString
  OrgID : GoString
  deriving DecidableEq

/-- The fields of `Server` used by the intent retrieval: `GetIntentWriteModel` is
`s.command.GetIntentWriteModel` (arguments: context, intent id, resource owner). -/
structure Server where
  GetIntentWriteModel : CtxData → GoString → GoString → Except Error IDPIntentWriteModel
  idpAlg : EncryptionAlgorithm

/-- The method `Server.RetrieveIdentityProviderInformation` (user.go, lines 153-165). -/
def RetrieveIdentityProviderInformation
    (DecryptString : CryptoValue → EncryptionAlgorithm → Except Error GoString)
    (s : Server) (ctx : CtxData) (req : RetrieveIdentityProviderInformationRequest) :
    Except Error RetrieveIdentityProviderInformationResponse :=
  match s.GetIntentWriteModel ctx req.IntentId ctx.OrgID with
  | .error err => .error err
  | .ok intent =>
    match checkIntentToken s.idpAlg req.Token intent.AggregateID with
    | some err => .error err
    | none =>
      if intent.State ≠ IDPIntentStateSucceeded then
        .error (ThrowPreconditionFailed none "IDP-Hk38e" "Errors.Intent.NotSucceeded")
      else intentToIDPInformationPb DecryptString intent s.idpAlg

/-! ## `internal/repository/org/idp.go` -/

/-- The type `eventstore.EventType`, a string type; its constants are ASCII literals. -/
abbrev EventType := String

def OAuthIDPAddedEventType : EventType := "org.idp.oauth.added"

def OAuthIDPChangedEventType : EventType := "org.idp.oauth.changed"

def OIDCIDPAddedEventType : EventType := "org.idp.oidc.added"

def OIDCIDPChangedEventType : EventType := "org.idp.oidc.changed"

def JWTIDPAddedEventType : EventType := "org.idp.jwt.added"

def JWTIDPChangedEventType : EventType := "org.idp.jwt.changed"

def GoogleIDPAddedEventType : EventType := "org.idp.google.added"

def GoogleIDPChangedEventType : EventType := "org.idp.google.changed"

def LDAPIDPAddedEventType : EventType := "org.idp.ldap.added"

def LDAPIDPChangedEventType : EventType := "org.idp.ldap.changed"

def IDPRemovedEventType : EventType := "org.idp.removed"

/-- The constants of the `const` block of idp.go (lines 12-24), in the order of declaration. -/
def eventTypeConstants : List EventType :=
  [OAuthIDPAddedEventType, OAuthIDPChangedEventType, OIDCIDPAddedEventType,
    OIDCIDPChangedEventType, JWTIDPAddedEventType, JWTIDPChangedEventType,
    GoogleIDPAddedEventType, GoogleIDPChangedEventType, LDAPIDPAddedEventType,
    LDAPIDPChangedEventType, IDPRemovedEventType]

/-- The five provider types of the event family. -/
def providerTypes : List String := ["oauth", "oidc", "jwt", "google", "ldap"]

/-- What idp.go imports from the packages `context`, `eventstore` and `idp`: the types of
contexts, aggregates (`*eventstore.Aggregate`) and base events, the provider-specific
types of package `idp`, the function `eventstore.NewBaseEventForPush`, and the eleven event
constructors of package `idp`, each taking the base event first. -/
structure Imports where
  Context : Type
  Aggregate : Type
  BaseEvent : Type
  Options : Type
  LDAPAttributes : Type
  OAuthIDPChanges : Type
  OIDCIDPChanges : Type
  JWTIDPChanges : Type
  GoogleIDPChanges : Type
  LDAPIDPChanges : Type
  OAuthIDPAddedEvent : Type
  OAuthIDPChangedEvent : Type
  OIDCIDPAddedEvent : Type
  OIDCIDPChangedEvent : Type
  JWTIDPAddedEvent : Type
  JWTIDPChangedEvent : Type
  GoogleIDPAddedEvent : Type
  GoogleIDPChangedEvent : Type
  LDAPIDPAddedEvent : Type
  LDAPIDPChangedEvent : Type
  RemovedEvent : Type
  NewBaseEventForPush : Context → Aggregate → EventType → BaseEvent
  NewOAuthIDPAddedEvent : BaseEvent → GoString → GoString → GoString → Option CryptoValue →
    GoString → GoString → GoString → GoString → List GoString → Options → OAuthIDPAddedEvent
  NewOAuthIDPChangedEvent : BaseEvent → GoString → List OAuthIDPChanges →
    Except Error OAuthIDPChangedEvent
  NewOIDCIDPAddedEvent : BaseEvent → GoString → GoString → GoString → GoString →
    Option CryptoValue → List GoString → Options → OIDCIDPAddedEvent
  NewOIDCIDPChangedEvent : BaseEvent → GoString → List OIDCIDPChanges →
    Except Error OIDCIDPChangedEvent
  NewJWTIDPAddedEvent : BaseEvent → GoString → GoString → GoString → GoString → GoString →
    GoString → Options → JWTIDPAddedEvent
  NewJWTIDPChangedEvent : BaseEvent → GoString → List JWTIDPChanges →
    Except Error JWTIDPChangedEvent
  NewGoogleIDPAddedEvent : BaseEvent → GoString → GoString → GoString → Option CryptoValue →
    List GoString → Options → GoogleIDPAddedEvent
  NewGoogleIDPChangedEvent : BaseEvent → GoString → List GoogleIDPChanges →
    Except Error GoogleIDPChangedEvent
  NewLDAPIDPAddedEvent : BaseEvent → GoString → GoString → GoString → GoString → Bool →
    GoString → GoString → GoString → GoString → Option CryptoValue → LDAPAttributes →
    Options → LDAPIDPAddedEvent
  NewLDAPIDPChangedEvent : BaseEvent → GoString → GoString → List LDAPIDPChanges →
    Except Error LDAPIDPChangedEvent
  NewRemovedEvent : BaseEvent → GoString → RemovedEvent

namespace Org

/-- The struct `org.OAuthIDPAddedEvent`, embedding `idp.OAuthIDPAddedEvent`. -/
structure OAuthIDPAddedEvent (I : Imports) where
  OAuthIDPAddedEvent : I.OAuthIDPAddedEvent

/-- The struct `org.OAuthIDPChangedEvent`, embedding `idp.OAuthIDPChangedEvent`. -/
structure OAuthIDPChangedEvent (I : Imports) where
  OAuthIDPChangedEvent : I.OAuthIDPChangedEvent

/-- The struct `org.OIDCIDPAddedEvent`, embedding `idp.OIDCIDPAddedEvent`. -/
structure OIDCIDPAddedEvent (I : Imports) where
  OIDCIDPAddedEvent : I.OIDCIDPAddedEvent

/-- The struct `org.OIDCIDPChangedEvent`, embedding `idp.OIDCIDPChangedEvent`. -/
structure OIDCIDPChangedEvent (I : Imports) where
  OIDCIDPChangedEvent : I.OIDCIDPChangedEvent

/-- The struct `org.JWTIDPAddedEvent`, embedding `idp.JWTIDPAddedEvent`. -/
structure JWTIDPAddedEvent (I : Imports) where
  JWTIDPAddedEvent : I.JWTIDPAddedEvent

/-- The struct `org.JWTIDPChangedEvent`, embedding `idp.JWTIDPChangedEvent`. -/
structure JWTIDPChangedEvent (I : Imports) where
  JWTIDPChangedEvent : I.JWTIDPChangedEvent

/-- The struct `org.GoogleIDPAddedEvent`, embedding `idp.GoogleIDPAddedEvent`. -/
structure GoogleIDPAddedEvent (I : Imports) where
  GoogleIDPAddedEvent : I.GoogleIDPAddedEvent

/-- The struct `org.GoogleIDPChangedEvent`, embedding `idp.GoogleIDPChangedEvent`. -/
structure GoogleIDPChangedEvent (I : Imports) where
  GoogleIDPChangedEvent : I.GoogleIDPChangedEvent

/-- The struct `org.LDAPIDPAddedEvent`, embedding `idp.LDAPIDPAddedEvent`. -/
structure LDAPIDPAddedEvent (I : Imports) where
  LDAPIDPAddedEvent : I.LDAPIDPAddedEvent

/-- The struct `org.LDAPIDPChangedEvent`, embedding `idp.LDAPIDPChangedEvent`. -/
structure LDAPIDPChangedEvent (I : Imports) where
  LDAPIDPChangedEvent : I.LDAPIDPChangedEvent

/-- The struct `org.IDPRemovedEvent`, embedding `idp.RemovedEvent`. -/
structure IDPRemovedEvent (I : Imports) where
  RemovedEvent : I.RemovedEvent

/-- The constructor `NewOAuthIDPAddedEvent` (idp.go, lines 30-64). -/
def NewOAuthIDPAddedEvent (I : Imports) (ctx : I.Context) (aggregate : I.Aggregate)
    (id name clientID : GoString) (clientSecret : Option CryptoValue)
    (authorizationEndpoint tokenEndpoint userEndpoint idAttribute : GoString)
    (scopes : List GoString) (options : I.Options) : OAuthIDPAddedEvent I :=
  { OAuthIDPAddedEvent :=
      I.NewOAuthIDPAddedEvent (I.NewBaseEventForPush ctx aggregate Zitadel.OAuthIDPAddedEventType)
        id name clientID clientSecret authorizationEndpoint tokenEndpoint userEndpoint
        idAttribute scopes options }

/-- The constructor `NewOAuthIDPChangedEvent` (idp.go, lines 79-99). -/
def NewOAuthIDPChangedEvent (I : Imports) (ctx : I.Context) (aggregate : I.Aggregate)
    (id : GoString) (changes : List I.OAuthIDPChanges) :
    Except Error (OAuthIDPChangedEvent I) :=
  match I.NewOAuthIDPChangedEvent
      (I.NewBaseEventForPush ctx aggregate Zitadel.OAuthIDPChangedEventType) id changes with
  | .error err => .error err
  | .ok changedEvent => .ok { OAuthIDPChangedEvent := changedEvent }

/-- The constructor `NewOIDCIDPAddedEvent` (idp.go, lines 114-142). -/
def NewOIDCIDPAddedEvent (I : Imports) (ctx : I.Context) (aggregate : I.Aggregate)
    (id name issuer clientID : GoString) (clientSecret : Option CryptoValue)
    (scopes : List GoString) (options : I.Options) : OIDCIDPAddedEvent I :=
  { OIDCIDPAddedEvent :=
      I.NewOIDCIDPAddedEvent (I.NewBaseEventForPush ctx aggregate Zitadel.OIDCIDPAddedEventType)
        id name issuer clientID clientSecret scopes options }

/-- The constructor `NewOIDCIDPChangedEvent` (idp.go, lines 157-177). -/
def NewOIDCIDPChangedEvent (I : Imports) (ctx : I.Context) (aggregate : I.Aggregate)
    (id : GoString) (changes : List I.OIDCIDPChanges) :
    Except Error (OIDCIDPChangedEvent I) :=
  match I.NewOIDCIDPChangedEvent
      (I.NewBaseEventForPush ctx aggregate Zitadel.OIDCIDPChangedEventType) id changes with
  | .error err => .error err
  | .ok changedEvent => .ok { OIDCIDPChangedEvent := changedEvent }

/-- The constructor `NewJWTIDPAddedEvent` (idp.go, lines 192-220). -/
def NewJWTIDPAddedEvent (I : Imports) (ctx : I.Context) (aggregate : I.Aggregate)
    (id name issuer jwtEndpoint keysEndpoint headerName : GoString) (options : I.Options) :
    JWTIDPAddedEvent I :=
  { JWTIDPAddedEvent :=
      I.NewJWTIDPAddedEvent (I.NewBaseEventForPush ctx aggregate Zitadel.JWTIDPAddedEventType)
        id name issuer jwtEndpoint keysEndpoint headerName options }

/-- The constructor `NewJWTIDPChangedEvent` (idp.go, lines 235-255). -/
def NewJWTIDPChangedEvent (I : Imports) (ctx : I.Context) (aggregate : I.Aggregate)
    (id : GoString) (changes : List I.JWTIDPChanges) : Except Error (JWTIDPChangedEvent I) :=
  match I.NewJWTIDPChangedEvent
      (I.NewBaseEventForPush ctx aggregate Zitadel.JWTIDPChangedEventType) id changes with
  | .error err => .error err
  | .ok changedEvent => .ok { JWTIDPChangedEvent := changedEvent }

/-- The constructor `NewGoogleIDPAddedEvent` (idp.go, lines 270-296). -/
def NewGoogleIDPAddedEvent (I : Imports) (ctx : I.Context) (aggregate : I.Aggregate)
    (id name clientID : GoString) (clientSecret : Option CryptoValue)
    (scopes : List GoString) (options : I.Options) : GoogleIDPAddedEvent I :=
  { GoogleIDPAddedEvent :=
      I.NewGoogleIDPAddedEvent
        (I.NewBaseEventForPush ctx aggregate Zitadel.GoogleIDPAddedEventType)
        id name clientID clientSecret scopes options }

/-- The constructor `NewGoogleIDPChangedEvent` (idp.go, lines 311-331). -/
def NewGoogleIDPChangedEvent (I : Imports) (ctx : I.Context) (aggregate : I.Aggregate)
    (id : GoString) (changes : List I.GoogleIDPChanges) :
    Except Error (GoogleIDPChangedEvent I) :=
  match I.NewGoogleIDPChangedEvent
      (I.NewBaseEventForPush ctx aggregate Zitadel.GoogleIDPChangedEventType) id changes with
  | .error err => .error err
  | .ok changedEvent => .ok { GoogleIDPChangedEvent := changedEvent }

/-- The constructor `NewLDAPIDPAddedEvent` (idp.go, lines 346-384). -/
def NewLDAPIDPAddedEvent (I : Imports) (ctx : I.Context) (aggregate : I.Aggregate)
    (id name host port : GoString) (tls : Bool)
    (baseDN userObjectClass userUniqueAttribute admin : GoString)
    (password : Option CryptoValue) (attributes : I.LDAPAttributes) (options : I.Options) :
    LDAPIDPAddedEvent I :=
  { LDAPIDPAddedEvent :=
      I.NewLDAPIDPAddedEvent (I.NewBaseEventForPush ctx aggregate Zitadel.LDAPIDPAddedEventType)
        id name host port tls baseDN userObjectClass userUniqueAttribute admin password
        attributes options }

/-- The constructor `NewLDAPIDPChangedEvent` (idp.go, lines 399-421). -/
def NewLDAPIDPChangedEvent (I : Imports) (ctx : I.Context) (aggregate : I.Aggregate)
    (id oldName : GoString) (changes : List I.LDAPIDPChanges) :
    Except Error (LDAPIDPChangedEvent I) :=
  match I.NewLDAPIDPChangedEvent
      (I.NewBaseEventForPush ctx aggregate Zitadel.LDAPIDPChangedEventType)
      id oldName changes with
  | .error err => .error err
  | .ok changedEvent => .ok { LDAPIDPChangedEvent := changedEvent }

/-- The constructor `NewIDPRemovedEvent` (idp.go, lines 436-451). -/
def NewIDPRemovedEvent (I : Imports) (ctx : I.Context) (aggregate : I.Aggregate)
    (id : GoString) : IDPRemovedEvent I :=
  { RemovedEvent :=
      I.NewRemovedEvent (I.NewBaseEventForPush ctx aggregate Zitadel.IDPRemovedEventType) id }

end Org

/-! ## Concrete instances used to evaluate the definitions -/

/-- A small cipher: a ciphertext is the tag byte `0x2A` followed by the reversed value; it
decrypts under the key `key-1` only, and only when the tag byte is intact. -/
def sampleAlg : EncryptionAlgorithm where
  Algorithm := ascii "sample"
  EncryptionKeyID := ascii "key-1"
  DecryptionKeyIDs := [ascii "key-1"]
  Encrypt := fun _ value => .ok (0x2A :: value.reverse)
  Decrypt := fun hashed keyID =>
    if keyID = ascii "key-1" then
      match hashed with
      | tag :: rest =>
        if tag = 0x2A then .ok rest.reverse
        else .error (.foreign "cipher: message authentication failed")
      | [] => .error (.foreign "cipher: message authentication failed")
    else .error (.foreign "cipher: unknown key")

/-- The token issued for the intent `intent-123` under `sampleAlg`. -/
def sampleToken : GoString := EncodeToString (0x2A :: (ascii "intent-123").reverse)

/-- A template renderer that accepts every template. -/
def sampleRender (_ _ _ _ : GoString) : Option Error := none

/-- A stand-in for `language.Make` that keeps the language string as the tag. -/
def sampleLanguageMake (s : GoString) : GoString := s

/-- A request for the user `u1` carrying a hashed password with the given algorithm. -/
def sampleRequest (algorithm : GoString) : AddHumanUserRequest where
  UserId := some (ascii "u1")
  Username := none
  Profile := some {
    FirstName := ascii "Ada", LastName := ascii "Lovelace", NickName := none,
    DisplayName := none, PreferredLanguage := some (ascii "en"), Gender := some 1 }
  Email := some {
    Email := ascii "ada@example.com", SendCode := none, ReturnCode := none,
    IsVerified := true }
  Metadata := []
  Password := none
  HashedPassword := some {
    Hash := ascii "$2a$10$abc", ChangeRequired := false, Algorithm := algorithm }
  IdpLinks := []

/-- A stand-in for `crypto.DecryptString`: the stored value is decrypted by the algorithm
under the key id recorded in the value. -/
def sampleDecryptString (value : CryptoValue) (alg : EncryptionAlgorithm) :
    Except Error GoString :=
  alg.Decrypt value.Crypted value.KeyID

/-- A succeeded intent `intent-123` holding an encrypted access token and an ID token. -/
def succeededIntent : IDPIntentWriteModel where
  AggregateID := ascii "intent-123"
  ProcessedSequence := 2
  ResourceOwner := ascii "org-1"
  ChangeDate := { seconds := 1700000000, nanos := 0 }
  IDPUser := ascii "\x7b\"sub\":\"u1\"\x7d"
  IDPAccessToken := some {
    Algorithm := ascii "sample", KeyID := ascii "key-1",
    Crypted := 0x2A :: (ascii "access").reverse }
  IDPIDToken := ascii "id-token"
  State := .Succeeded

/-- An intent `intent-456` that has been created and not completed. -/
def createdIntent : IDPIntentWriteModel where
  AggregateID := ascii "intent-456"
  ProcessedSequence := 1
  ResourceOwner := ascii "org-1"
  ChangeDate := { seconds := 1700000000, nanos := 0 }
  IDPUser := []
  IDPAccessToken := none
  IDPIDToken := []
  State := .Created

/-- A server that knows the two intents above and reports NotFound for every other id. -/
def sampleServer : Server where
  GetIntentWriteModel := fun _ id _ =>
    if id = ascii "intent-123" then .ok succeededIntent
    else if id = ascii "intent-456" then .ok createdIntent
    else .error (.caos .NotFound none "COMMAND-Sfe2g" "Errors.Intent.NotFound")
  idpAlg := sampleAlg

def sampleCtx : CtxData where
  UserID := ascii "caller"
  OrgID := ascii "org-1"

/-- A base event as recorded by `recordingImports`: the aggregate and the type tag it was
built for. -/
structure RecordedBase where
  aggregate : GoString
  eventType : EventType
  deriving DecidableEq

/-- A stand-in for the imported packages in which an aggregate is its id, a base event
records the aggregate and the type tag, every `idp` event is its base event, and a Changed
constructor refuses an empty list of changes. -/
def recordingImports : Imports where
  Context := CtxData
  Aggregate := GoString
  BaseEvent := RecordedBase
  Options := Unit
  LDAPAttributes := Unit
  OAuthIDPChanges := Unit
  OIDCIDPChanges := Unit
  JWTIDPChanges := Unit
  GoogleIDPChanges := Unit
  LDAPIDPChanges := Unit
  OAuthIDPAddedEvent := RecordedBase
  OAuthIDPChangedEvent := RecordedBase
  OIDCIDPAddedEvent := RecordedBase
  OIDCIDPChangedEvent := RecordedBase
  JWTIDPAddedEvent := RecordedBase
  JWTIDPChangedEvent := RecordedBase
  GoogleIDPAddedEvent := RecordedBase
  GoogleIDPChangedEvent := RecordedBase
  LDAPIDPAddedEvent := RecordedBase
  LDAPIDPChangedEvent := RecordedBase
  RemovedEvent := RecordedBase
  NewBaseEventForPush := fun _ aggregate typ => { aggregate := aggregate, eventType := typ }
  NewOAuthIDPAddedEvent := fun base _ _ _ _ _ _ _ _ _ _ => base
  NewOAuthIDPChangedEvent := fun base _ changes =>
    if changes.length = 0 then
      .error (ThrowPreconditionFailed none "IDP-SDf3f" "Errors.NoChangesFound")
    else .ok base
  NewOIDCIDPAddedEvent := fun base _ _ _ _ _ _ _ => base
  NewOIDCIDPChangedEvent := fun base _ changes =>
    if changes.length = 0 then
      .error (ThrowPreconditionFailed none "IDP-BH3dl" "Errors.NoChangesFound")
    else .ok base
  NewJWTIDPAddedEvent := fun base _ _ _ _ _ _ _ => base
  NewJWTIDPChangedEvent := fun base _ changes =>
    if changes.length = 0 then
      .error (ThrowPreconditionFailed none "IDP-BH3dl" "Errors.NoChangesFound")
    else .ok base
  NewGoogleIDPAddedEvent := fun base _ _ _ _ _ _ => base
  NewGoogleIDPChangedEvent := fun base _ changes =>
    if changes.length = 0 then
      .error (ThrowPreconditionFailed none "IDP-Dg3qs" "Errors.NoChangesFound")
    else .ok base
  NewLDAPIDPAddedEvent := fun base _ _ _ _ _ _ _ _ _ _ _ _ => base
  NewLDAPIDPChangedEvent := fun base _ _ changes =>
    if changes.length = 0 then
      .error (ThrowPreconditionFailed none "IDP-SDf3f" "Errors.NoChangesFound")
    else .ok base
  NewRemovedEvent := fun base _ => base

/-! ## Arithmetic of the base64 quantum -/

theorem or_eq_add_of_mul (x b i a : Nat) (hx : x = 2 ^ i * a) (hb : b < 2 ^ i) :
    x ||| b = x + b := by
  subst hx
  exact (Nat.mul_add_lt_is_or hb a).symm

theorem and_0x3F (v : Nat) : v &&& 0x3F = v % 64 := by
  have h := Nat.and_pow_two_sub_one_eq_mod v 6
  norm_num at h
  exact h

theorem pack3 (a b c : Nat) (hb : b < 256) (hc : c < 256) :
    a <<< 16 ||| b <<< 8 ||| c = a * 65536 + b * 256 + c := by
  simp only [Nat.shiftLeft_eq]
  rw [or_eq_add_of_mul (a * 2 ^ 16) (b * 2 ^ 8) 16 a (by ring) (by omega),
    or_eq_add_of_mul _ c 8 (a * 256 + b) (by ring) (by omega)]

theorem pack4 (p q r s : Nat) (hq : q < 64) (hr : r < 64) (hs : s < 64) :
    p <<< 18 ||| q <<< 12 ||| r <<< 6 ||| s = p * 262144 + q * 4096 + r * 64 + s := by
  simp only [Nat.shiftLeft_eq]
  rw [or_eq_add_of_mul (p * 2 ^ 18) (q * 2 ^ 12) 18 p (by ring) (by omega),
    or_eq_add_of_mul _ (r * 2 ^ 6) 12 (p * 64 + q) (by ring) (by omega),
    or_eq_add_of_mul _ s 6 (p * 4096 + q * 64 + r) (by ring) (by omega)]

theorem decodeMap_encodeAt : ∀ i, i < 64 → decodeMap (encodeAt i) = i := by decide

theorem decodeMap_encodeAt_ne (i : Nat) (h : i < 64) : decodeMap (encodeAt i) ≠ 0xff := by
  rw [decodeMap_encodeAt i h]; omega


/-- One step of the decoding loop on a character produced by the encoder, while the quantum
is not yet full. -/
theorem decodeLoop_collect (i : Nat) (h : i < 64) (src : List Byte) (dbuf : List Nat)
    (hd : dbuf.length + 1 ≠ 4) :
    decodeLoop (encodeAt i :: src) dbuf = decodeLoop src (dbuf ++ [i]) := by
  rw [decodeLoop, if_pos (decodeMap_encodeAt_ne i h), if_neg hd, decodeMap_encodeAt i h]

/-- The step of the decoding loop that completes a quantum. -/
theorem decodeLoop_full (i : Nat) (h : i < 64) (src : List Byte) (dbuf : List Nat)
    (hd : dbuf.length + 1 = 4) :
    decodeLoop (encodeAt i :: src) dbuf =
      match decodeLoop src [] with
      | .ok out => .ok (quantumBytes (dbuf ++ [i]) ++ out)
      | .error e => .error e := by
  rw [decodeLoop, if_pos (decodeMap_encodeAt_ne i h), if_pos hd, decodeMap_encodeAt i h]

theorem quantum_three (a b c : Byte) :
    quantumBytes [(a.val <<< 16 ||| b.val <<< 8 ||| c.val) >>> 18 &&& 0x3F,
      (a.val <<< 16 ||| b.val <<< 8 ||| c.val) >>> 12 &&& 0x3F,
      (a.val <<< 16 ||| b.val <<< 8 ||| c.val) >>> 6 &&& 0x3F,
      (a.val <<< 16 ||| b.val <<< 8 ||| c.val) &&& 0x3F] = [a, b, c] := by
  have ha := a.isLt
  have hb := b.isLt
  have hc := c.isLt
  simp only [quantumBytes, List.getD_cons_zero, List.getD_cons_succ, and_0x3F,
    pack3 a.val b.val c.val hb hc, Nat.shiftRight_eq_div_pow, List.length_cons,
    List.length_nil]
  rw [pack4 _ _ _ _ (Nat.mod_lt _ (by decide)) (Nat.mod_lt _ (by decide))
    (Nat.mod_lt _ (by decide))]
  simp only [toByte, List.take, List.cons.injEq, and_true]
  refine ⟨?_, ?_, ?_⟩ <;> apply Fin.ext <;> simp only [] <;> omega


theorem pack2 (a b : Nat) (hb : b < 256) : a <<< 16 ||| b <<< 8 = a * 65536 + b * 256 := by
  simp only [Nat.shiftLeft_eq]
  rw [or_eq_add_of_mul (a * 2 ^ 16) (b * 2 ^ 8) 16 a (by ring) (by omega)]

theorem quantum_two (a b : Byte) :
    quantumBytes [(a.val <<< 16 ||| b.val <<< 8) >>> 18 &&& 0x3F,
      (a.val <<< 16 ||| b.val <<< 8) >>> 12 &&& 0x3F,
      (a.val <<< 16 ||| b.val <<< 8) >>> 6 &&& 0x3F] = [a, b] := by
  have ha := a.isLt
  have hb := b.isLt
  simp only [quantumBytes, List.getD_cons_zero, List.getD_cons_succ, List.getD_nil, and_0x3F,
    pack2 a.val b.val hb, Nat.shiftRight_eq_div_pow, List.length_cons, List.length_nil]
  rw [pack4 _ _ _ _ (Nat.mod_lt _ (by decide)) (Nat.mod_lt _ (by decide)) (by decide)]
  simp only [toByte, List.take, List.cons.injEq, and_true]
  refine ⟨?_, ?_⟩ <;> apply Fin.ext <;> simp only [] <;> omega

theorem quantum_one (a : Byte) :
    quantumBytes [(a.val <<< 16) >>> 18 &&& 0x3F, (a.val <<< 16) >>> 12 &&& 0x3F] = [a] := by
  have ha := a.isLt
  simp only [quantumBytes, List.getD_cons_zero, List.getD_cons_succ, List.getD_nil, and_0x3F,
    Nat.shiftLeft_eq a.val, Nat.shiftRight_eq_div_pow, List.length_cons, List.length_nil]
  rw [pack4 _ _ _ _ (Nat.mod_lt _ (by decide)) (by decide) (by decide)]
  simp only [toByte, List.take, List.cons.injEq, and_true]
  apply Fin.ext
  simp only []
  omega

/-- Decoding undoes encoding: `DecodeString (EncodeToString c)` returns `c`. -/
theorem decodeString_encodeToString : ∀ c : List Byte, DecodeString (EncodeToString c) = .ok c
  | [] => by simp [DecodeString, EncodeToString, decodeLoop]
  | [a] => by
    simp only [DecodeString, EncodeToString]
    rw [decodeLoop_collect _ (by rw [and_0x3F]; omega) _ _ (by simp),
      decodeLoop_collect _ (by rw [and_0x3F]; omega) _ _ (by simp)]
    simp only [List.nil_append, List.cons_append, decodeLoop, List.length_cons, List.length_nil]
    rw [quantum_one]
    rfl
  | [a, b] => by
    simp only [DecodeString, EncodeToString]
    rw [decodeLoop_collect _ (by rw [and_0x3F]; omega) _ _ (by simp),
      decodeLoop_collect _ (by rw [and_0x3F]; omega) _ _ (by simp),
      decodeLoop_collect _ (by rw [and_0x3F]; omega) _ _ (by simp)]
    simp only [List.nil_append, List.cons_append, decodeLoop, List.length_cons, List.length_nil]
    rw [quantum_two]
    rfl
  | a :: b :: c :: rest => by
    have ih := decodeString_encodeToString rest
    simp only [DecodeString] at ih
    simp only [DecodeString, EncodeToString]
    rw [decodeLoop_collect _ (by rw [and_0x3F]; omega) _ _ (by simp),
      decodeLoop_collect _ (by rw [and_0x3F]; omega) _ _ (by simp),
      decodeLoop_collect _ (by rw [and_0x3F]; omega) _ _ (by simp),
      decodeLoop_full _ (by rw [and_0x3F]; omega) _ _ (by simp), ih]
    simp only [List.nil_append, List.cons_append]
    rw [quantum_three]
    rfl

theorem encodeToString_eq_nil (c : List Byte) : EncodeToString c = [] ↔ c = [] := by
  match c with
  | [] => simp [EncodeToString]
  | [a] => simp [EncodeToString]
  | [a, b] => simp [EncodeToString]
  | a :: b :: c :: rest => simp [EncodeToString]


/-! ## The base64 embedding on known values -/

/-- The encoder on the RFC 4648 test strings, in the URL-safe alphabet and without padding. -/
theorem encodeToString_vectors :
    EncodeToString (ascii "") = ascii "" ∧
    EncodeToString (ascii "f") = ascii "Zg" ∧
    EncodeToString (ascii "fo") = ascii "Zm8" ∧
    EncodeToString (ascii "foo") = ascii "Zm9v" ∧
    EncodeToString (ascii "foob") = ascii "Zm9vYg" ∧
    EncodeToString (ascii "fooba") = ascii "Zm9vYmE" ∧
    EncodeToString (ascii "foobar") = ascii "Zm9vYmFy" ∧
    EncodeToString [0xfb, 0xff, 0xbe] = ascii "-_--" := by
  decide

/-- The decoder on the same strings; it skips `\r` and `\n`, accepts trailing bits that are
not zero, and refuses a padding character, a byte of the standard alphabet that is not in
the URL-safe one, and a final quantum of a single character. -/
theorem decodeString_vectors :
    DecodeString (ascii "Zg") = .ok (ascii "f") ∧
    DecodeString (ascii "Zm8") = .ok (ascii "fo") ∧
    DecodeString (ascii "Zm9vYmFy") = .ok (ascii "foobar") ∧
    DecodeString (ascii "Zm9v\r\nYmFy\n") = .ok (ascii "foobar") ∧
    DecodeString (ascii "Zh") = .ok (ascii "f") ∧
    DecodeString (ascii "Zg==") = .error CorruptInputError ∧
    DecodeString (ascii "+/+/") = .error CorruptInputError ∧
    DecodeString (ascii "Zm9vY") = .error CorruptInputError :=
  ⟨rfl, rfl, rfl, rfl, rfl, rfl, rfl, rfl⟩

/-! ## The intent token -/

/-- Every outcome of `checkIntentToken` is `nil` or a PermissionDenied error. -/
theorem checkIntentToken_none_or_denied (alg : EncryptionAlgorithm)
    (token intentID : GoString) :
    checkIntentToken alg token intentID = none ∨
      ∃ e, checkIntentToken alg token intentID = some e ∧ IsPermissionDenied e := by
  unfold checkIntentToken
  split
  · exact Or.inr ⟨_, rfl, rfl⟩
  · split
    · exact Or.inr ⟨_, rfl, rfl⟩
    · split
      · exact Or.inr ⟨_, rfl, rfl⟩
      · split
        · exact Or.inr ⟨_, rfl, rfl⟩
        · exact Or.inl rfl

/-- C1: `checkIntentToken` returns either `nil` or a PermissionDenied error.  It returns a
PermissionDenied error exactly when the token is empty, or does not decode as unpadded
URL-safe base64, or its decoding does not decrypt under the current key id, or decrypts to
bytes other than the intent id; in every remaining case it returns `nil`. -/
theorem checkIntentToken_outcome (alg : EncryptionAlgorithm) (token intentID : GoString) :
    (checkIntentToken alg token intentID = none ∨
      ∃ e, checkIntentToken alg token intentID = some e ∧ IsPermissionDenied e) ∧
    ((∃ e, checkIntentToken alg token intentID = some e ∧ IsPermissionDenied e) ↔
      (token = [] ∨ (∃ err, DecodeString token = .error err) ∨
        (∃ data err, DecodeString token = .ok data ∧
          alg.Decrypt data alg.EncryptionKeyID = .error err) ∨
        (∃ data decrypted, DecodeString token = .ok data ∧
          alg.Decrypt data alg.EncryptionKeyID = .ok decrypted ∧ decrypted ≠ intentID))) ∧
    (checkIntentToken alg token intentID = none ↔
      ¬ (token = [] ∨ (∃ err, DecodeString token = .error err) ∨
        (∃ data err, DecodeString token = .ok data ∧
          alg.Decrypt data alg.EncryptionKeyID = .error err) ∨
        (∃ data decrypted, DecodeString token = .ok data ∧
          alg.Decrypt data alg.EncryptionKeyID = .ok decrypted ∧ decrypted ≠ intentID))) := by
  unfold checkIntentToken
  by_cases ht : token = []
  · simp [ht, IsPermissionDenied, ThrowPermissionDenied, Error.kind?]
  · simp only [if_neg ht]
    cases hd : DecodeString token with
    | error err => simp [ht, IsPermissionDenied, ThrowPermissionDenied, Error.kind?]
    | ok data =>
      cases hc : alg.Decrypt data alg.EncryptionKeyID with
      | error err => simp [ht, hc, IsPermissionDenied, ThrowPermissionDenied, Error.kind?]
      | ok decrypted =>
        by_cases he : decrypted = intentID <;>
          simp [ht, hc, he, IsPermissionDenied, ThrowPermissionDenied, Error.kind?]

/-- A token that is the encoding of a non-empty ciphertext passes the check against an
intent id exactly when the ciphertext decrypts to that id. -/
theorem checkIntentToken_encode (alg : EncryptionAlgorithm) (c : List Byte) (a b : GoString)
    (hne : c ≠ []) (hdec : alg.Decrypt c alg.EncryptionKeyID = .ok a) :
    checkIntentToken alg (EncodeToString c) b = none ↔ b = a := by
  have hn : EncodeToString c ≠ [] := fun h => hne ((encodeToString_eq_nil c).1 h)
  unfold checkIntentToken
  simp only [if_neg hn, decodeString_encodeToString, hdec]
  by_cases he : a = b
  · simp [he]
  · have he2 : ¬ b = a := fun h => he h.symm
    simp [he, he2]

theorem sampleAlg_round (entropy value c : List Byte)
    (h : sampleAlg.Encrypt entropy value = .ok c) :
    sampleAlg.Decrypt c sampleAlg.EncryptionKeyID = .ok value ∧ c ≠ [] := by
  simp only [sampleAlg, Except.ok.injEq] at h
  subst h
  simp [sampleAlg]

/-- C2: for a cipher whose `Decrypt` under the current key id undoes `Encrypt` and whose
ciphertexts are non-empty, the token that is the unpadded URL-safe base64 encoding of a
ciphertext of the intent id `a` passes `checkIntentToken` against `b` if and only if
`b = a`; against any other id the check fails with PermissionDenied. -/
theorem token_binding_round_trip (alg : EncryptionAlgorithm)
    (hround : ∀ entropy value c, alg.Encrypt entropy value = .ok c →
      alg.Decrypt c alg.EncryptionKeyID = .ok value ∧ c ≠ [])
    (a b : GoString) (entropy c : List Byte) (henc : alg.Encrypt entropy a = .ok c) :
    (checkIntentToken alg (EncodeToString c) b = none ↔ b = a) ∧
    (b ≠ a → ∃ e, checkIntentToken alg (EncodeToString c) b = some e ∧
      IsPermissionDenied e) := by
  have hiff := checkIntentToken_encode alg c a b (hround entropy a c henc).2
    (hround entropy a c henc).1
  refine ⟨hiff, fun hba => ?_⟩
  rcases checkIntentToken_none_or_denied alg (EncodeToString c) b with h | h
  · exact absurd (hiff.1 h) hba
  · exact h

/-- The round trip at `intent-123`: the issued token validates against `intent-123` and is
refused with PermissionDenied against `intent-999`. -/
theorem token_binding_round_trip_witness :
    checkIntentToken sampleAlg sampleToken (ascii "intent-123") = none ∧
    ∃ e, checkIntentToken sampleAlg sampleToken (ascii "intent-999") = some e ∧
      IsPermissionDenied e :=
  ⟨(token_binding_round_trip sampleAlg sampleAlg_round (ascii "intent-123")
      (ascii "intent-123") [] (0x2A :: (ascii "intent-123").reverse) rfl).1.2 rfl,
    (token_binding_round_trip sampleAlg sampleAlg_round (ascii "intent-123")
      (ascii "intent-999") [] (0x2A :: (ascii "intent-123").reverse) rfl).2 (by decide)⟩

/-! ## The password hash gate -/

theorem hashedPasswordToCommand_bcrypt (hashed : HashedPassword)
    (h : hashed.Algorithm = ascii "bcrypt") :
    hashedPasswordToCommand (some hashed) = (hashed.Hash, none) := by
  simp [hashedPasswordToCommand, HashedPassword.GetAlgorithm, HashedPassword.GetHash, h]

theorem hashedPasswordToCommand_other (hashed : HashedPassword)
    (h : hashed.Algorithm ≠ ascii "bcrypt") :
    hashedPasswordToCommand (some hashed) =
      ([], some (ThrowInvalidArgument none "USER-JDk4t" "Errors.InvalidArgument")) := by
  simp [hashedPasswordToCommand, HashedPassword.GetAlgorithm, h]

/-- C3: for a present hashed password, `hashedPasswordToCommand` returns the hash unchanged
and no error when the algorithm is exactly `bcrypt`, and for every other algorithm value
it returns the empty string together with an InvalidArgument error. -/
theorem hashedPasswordToCommand_gate (hashed : HashedPassword) :
    (hashed.Algorithm = ascii "bcrypt" →
      hashedPasswordToCommand (some hashed) = (hashed.Hash, none)) ∧
    (hashed.Algorithm ≠ ascii "bcrypt" →
      ∃ e, hashedPasswordToCommand (some hashed) = ([], some e) ∧
        IsErrorInvalidArgument e) := by
  exact ⟨hashedPasswordToCommand_bcrypt hashed,
    fun h => ⟨_, hashedPasswordToCommand_other hashed h, rfl⟩⟩

/-- The gate at concrete values: `bcrypt` forwards the hash; the empty algorithm and
another casing are refused with InvalidArgument and the empty string. -/
theorem hashedPasswordToCommand_gate_witness :
    hashedPasswordToCommand
        (some { Hash := ascii "$2a$10$abc", ChangeRequired := false, Algorithm := ascii "bcrypt" })
      = (ascii "$2a$10$abc", none) ∧
    (∃ e, hashedPasswordToCommand
        (some { Hash := ascii "$2a$10$abc", ChangeRequired := false, Algorithm := [] })
      = ([], some e) ∧ IsErrorInvalidArgument e) ∧
    (∃ e, hashedPasswordToCommand
        (some { Hash := ascii "$2a$10$abc", ChangeRequired := false, Algorithm := ascii "Bcrypt" })
      = ([], some e) ∧ IsErrorInvalidArgument e) :=
  ⟨(hashedPasswordToCommand_gate _).1 rfl,
    (hashedPasswordToCommand_gate _).2 (by decide),
    (hashedPasswordToCommand_gate _).2 (by decide)⟩

/-- C8: a request whose hashed password names an algorithm other than `bcrypt` makes
`addUserRequestToAddHuman` fail, so no `AddHuman` command is produced; and on every
request on which it succeeds, the command's `BcryptedPassword` is the request's hash when a
hashed password is present and the empty string when none is. -/
theorem addUserRequestToAddHuman_hash_gate {Tag : Type}
    (RenderConfirmURLTemplate : GoString → GoString → GoString → GoString → Option Error)
    (languageMake : GoString → Tag) (req : AddHumanUserRequest) :
    (∀ hashed, req.HashedPassword = some hashed → hashed.Algorithm ≠ ascii "bcrypt" →
      ∃ err, addUserRequestToAddHuman RenderConfirmURLTemplate languageMake req =
        .error err) ∧
    (∀ human, addUserRequestToAddHuman RenderConfirmURLTemplate languageMake req =
        .ok human →
      human.BcryptedPassword =
        match req.HashedPassword with
        | some hashed => hashed.Hash
        | none => []) := by
  constructor
  · intro hashed hp halg
    have he := hashedPasswordToCommand_other hashed halg
    unfold addUserRequestToAddHuman
    simp only [AddHumanUserRequest.GetHashedPassword, hp, he]
    split
    · exact ⟨_, rfl⟩
    · exact ⟨_, rfl⟩
  · intro human h
    unfold addUserRequestToAddHuman at h
    simp only [AddHumanUserRequest.GetHashedPassword] at h
    split at h
    · cases h
    · cases hp : req.HashedPassword with
      | none =>
        simp only [hp, hashedPasswordToCommand] at h
        simp only [if_true, Except.ok.injEq] at h
        subst h
        rfl
      | some hashed =>
        by_cases halg : hashed.Algorithm = ascii "bcrypt"
        · rw [hp, hashedPasswordToCommand_bcrypt hashed halg] at h
          simp only [Except.ok.injEq] at h
          subst h
          rfl
        · rw [hp, hashedPasswordToCommand_other hashed halg] at h
          cases h


/-- The converter at two concrete requests: with the algorithm `md5` it fails, and with
`bcrypt` it succeeds and forwards the hash. -/
theorem addUserRequestToAddHuman_hash_gate_witness :
    (∃ err, addUserRequestToAddHuman sampleRender sampleLanguageMake
      (sampleRequest (ascii "md5")) = .error err) ∧
    (∃ human, addUserRequestToAddHuman sampleRender sampleLanguageMake
      (sampleRequest (ascii "bcrypt")) = .ok human ∧
        human.BcryptedPassword = ascii "$2a$10$abc") :=
  ⟨(addUserRequestToAddHuman_hash_gate sampleRender sampleLanguageMake
      (sampleRequest (ascii "md5"))).1 _ rfl (by decide),
    ⟨_, rfl, (addUserRequestToAddHuman_hash_gate sampleRender sampleLanguageMake
      (sampleRequest (ascii "bcrypt"))).2 _ rfl⟩⟩


/-! ## Retrieval of the identity provider information -/

/-- The retrieval returns the error of the first failing step, in the order: loading the
write model, checking the token against the loaded aggregate id, requiring the state
Succeeded; when no step fails it returns what `intentToIDPInformationPb` returns. -/
theorem retrieve_steps
    (DecryptString : CryptoValue → EncryptionAlgorithm → Except Error GoString)
    (s : Server) (ctx : CtxData) (req : RetrieveIdentityProviderInformationRequest) :
    (∀ err, s.GetIntentWriteModel ctx req.IntentId ctx.OrgID = .error err →
      RetrieveIdentityProviderInformation DecryptString s ctx req = .error err) ∧
    (∀ intent, s.GetIntentWriteModel ctx req.IntentId ctx.OrgID = .ok intent →
      (∀ err, checkIntentToken s.idpAlg req.Token intent.AggregateID = some err →
        RetrieveIdentityProviderInformation DecryptString s ctx req = .error err) ∧
      (checkIntentToken s.idpAlg req.Token intent.AggregateID = none →
        (intent.State ≠ IDPIntentStateSucceeded →
          RetrieveIdentityProviderInformation DecryptString s ctx req =
            .error (ThrowPreconditionFailed none "IDP-Hk38e" "Errors.Intent.NotSucceeded")) ∧
        (intent.State = IDPIntentStateSucceeded →
          RetrieveIdentityProviderInformation DecryptString s ctx req =
            intentToIDPInformationPb DecryptString intent s.idpAlg))) := by
  refine ⟨fun err h => ?_, fun intent h => ⟨fun err hc => ?_, fun hc => ⟨fun hs => ?_, fun hs => ?_⟩⟩⟩
  · simp [RetrieveIdentityProviderInformation, h]
  · simp [RetrieveIdentityProviderInformation, h, hc]
  · simp [RetrieveIdentityProviderInformation, h, hc, hs]
  · simp [RetrieveIdentityProviderInformation, h, hc, hs]

/-- C4: whenever `RetrieveIdentityProviderInformation` returns a response, the write model
was loaded, the presented token passed `checkIntentToken` against the loaded intent's id,
and the intent's state is Succeeded; the response is the one built from that intent. -/
theorem retrieve_success_requires
    (DecryptString : CryptoValue → EncryptionAlgorithm → Except Error GoString)
    (s : Server) (ctx : CtxData) (req : RetrieveIdentityProviderInformationRequest)
    (resp : RetrieveIdentityProviderInformationResponse)
    (h : RetrieveIdentityProviderInformation DecryptString s ctx req = .ok resp) :
    ∃ intent, s.GetIntentWriteModel ctx req.IntentId ctx.OrgID = .ok intent ∧
      checkIntentToken s.idpAlg req.Token intent.AggregateID = none ∧
      intent.State = IDPIntentStateSucceeded ∧
      intentToIDPInformationPb DecryptString intent s.idpAlg = .ok resp := by
  obtain ⟨hl, hi⟩ := retrieve_steps DecryptString s ctx req
  cases hload : s.GetIntentWriteModel ctx req.IntentId ctx.OrgID with
  | error err => rw [hl err hload] at h; cases h
  | ok intent =>
    obtain ⟨hdenied, hpass⟩ := hi intent hload
    cases hc : checkIntentToken s.idpAlg req.Token intent.AggregateID with
    | some err => rw [hdenied err hc] at h; cases h
    | none =>
      by_cases hs : intent.State = IDPIntentStateSucceeded
      · exact ⟨intent, rfl, hc, hs, by rw [← (hpass hc).2 hs]; exact h⟩
      · rw [(hpass hc).1 hs] at h; cases h

/-- The retrieval of the succeeded intent `intent-123` with its token returns a response,
and the three conditions hold of it. -/
theorem retrieve_success_requires_witness :
    ∃ intent, sampleServer.GetIntentWriteModel sampleCtx (ascii "intent-123")
        sampleCtx.OrgID = .ok intent ∧
      checkIntentToken sampleServer.idpAlg sampleToken intent.AggregateID = none ∧
      intent.State = IDPIntentStateSucceeded ∧
      intentToIDPInformationPb sampleDecryptString intent sampleServer.idpAlg =
        .ok {
          Details := {
            Sequence := 2
            ChangeDate := { seconds := 1700000000, nanos := 0 }
            ResourceOwner := ascii "org-1" }
          IdpInformation := {
            Oauth := { AccessToken := ascii "access", IdToken := some (ascii "id-token") }
            IdpInformation := ascii "\x7b\"sub\":\"u1\"\x7d" } } :=
  retrieve_success_requires sampleDecryptString sampleServer sampleCtx
    { IntentId := ascii "intent-123", Token := sampleToken } _ rfl

/-- C5: when the write model loads, the token is valid for the loaded intent and the
intent's state is not Succeeded, `RetrieveIdentityProviderInformation` returns no response
and fails with PreconditionFailed. -/
theorem retrieve_not_succeeded
    (DecryptString : CryptoValue → EncryptionAlgorithm → Except Error GoString)
    (s : Server) (ctx : CtxData) (req : RetrieveIdentityProviderInformationRequest)
    (intent : IDPIntentWriteModel)
    (hload : s.GetIntentWriteModel ctx req.IntentId ctx.OrgID = .ok intent)
    (htoken : checkIntentToken s.idpAlg req.Token intent.AggregateID = none)
    (hstate : intent.State ≠ IDPIntentStateSucceeded) :
    ∃ e, RetrieveIdentityProviderInformation DecryptString s ctx req = .error e ∧
      IsPreconditionFailed e :=
  ⟨_, (((retrieve_steps DecryptString s ctx req).2 intent hload).2 htoken).1 hstate, rfl⟩

/-- The retrieval of the created intent `intent-456` with a valid token fails with
PreconditionFailed. -/
theorem retrieve_not_succeeded_witness :
    ∃ e, RetrieveIdentityProviderInformation sampleDecryptString sampleServer sampleCtx
        { IntentId := ascii "intent-456",
          Token := EncodeToString (0x2A :: (ascii "intent-456").reverse) } = .error e ∧
      IsPreconditionFailed e :=
  retrieve_not_succeeded sampleDecryptString sampleServer sampleCtx
    { IntentId := ascii "intent-456",
      Token := EncodeToString (0x2A :: (ascii "intent-456").reverse) }
    createdIntent rfl rfl (by decide)

/-- C6, as stated, fails: for an unknown intent id and an empty token (which validates
against no id) the retrieval returns the NotFound error of the load, which is not
PermissionDenied. -/
theorem retrieve_token_first_counterexample :
    checkIntentToken sampleServer.idpAlg [] (ascii "intent-000") ≠ none ∧
    RetrieveIdentityProviderInformation sampleDecryptString sampleServer sampleCtx
        { IntentId := ascii "intent-000", Token := [] } =
      .error (.caos .NotFound none "COMMAND-Sfe2g" "Errors.Intent.NotFound") ∧
    (Error.caos .NotFound none "COMMAND-Sfe2g" "Errors.Intent.NotFound").kind? ≠
      some ErrorKind.PermissionDenied :=
  ⟨by simp [checkIntentToken], rfl, by decide⟩

/-- C6, amended: the write model is loaded first and the token is checked against the
loaded intent's aggregate id afterwards.  When the load fails, the retrieval fails with
the error of the load whatever the token; when the load succeeds and the token does not
validate against the loaded intent's aggregate id, the retrieval fails with
PermissionDenied whatever the intent's state. -/
theorem retrieve_load_then_token
    (DecryptString : CryptoValue → EncryptionAlgorithm → Except Error GoString)
    (s : Server) (ctx : CtxData) (req : RetrieveIdentityProviderInformationRequest) :
    (∀ err, s.GetIntentWriteModel ctx req.IntentId ctx.OrgID = .error err →
      RetrieveIdentityProviderInformation DecryptString s ctx req = .error err) ∧
    (∀ intent, s.GetIntentWriteModel ctx req.IntentId ctx.OrgID = .ok intent →
      checkIntentToken s.idpAlg req.Token intent.AggregateID ≠ none →
      ∃ e, RetrieveIdentityProviderInformation DecryptString s ctx req = .error e ∧
        IsPermissionDenied e) := by
  obtain ⟨hl, hi⟩ := retrieve_steps DecryptString s ctx req
  refine ⟨hl, fun intent hload hbad => ?_⟩
  rcases checkIntentToken_none_or_denied s.idpAlg req.Token intent.AggregateID with h | h
  · exact absurd h hbad
  · obtain ⟨e, he, hk⟩ := h
    exact ⟨e, (hi intent hload).1 e he, hk⟩

/-- The amended statement at two requests: an unknown id gives the NotFound error of the
load, and the succeeded intent with the token of another intent gives PermissionDenied. -/
theorem retrieve_load_then_token_witness :
    RetrieveIdentityProviderInformation sampleDecryptString sampleServer sampleCtx
        { IntentId := ascii "intent-000", Token := sampleToken } =
      .error (.caos .NotFound none "COMMAND-Sfe2g" "Errors.Intent.NotFound") ∧
    ∃ e, RetrieveIdentityProviderInformation sampleDecryptString sampleServer sampleCtx
        { IntentId := ascii "intent-456", Token := sampleToken } = .error e ∧
      IsPermissionDenied e :=
  ⟨(retrieve_load_then_token sampleDecryptString sampleServer sampleCtx
      { IntentId := ascii "intent-000", Token := sampleToken }).1 _ rfl,
    (retrieve_load_then_token sampleDecryptString sampleServer sampleCtx
      { IntentId := ascii "intent-456", Token := sampleToken }).2 createdIntent rfl
      (by simp [sampleServer, createdIntent, sampleToken, checkIntentToken,
        decodeString_encodeToString, encodeToString_eq_nil, sampleAlg]; decide)⟩


/-! ## The response built from an intent -/

theorem intentToIDPInformationPb_error
    (DecryptString : CryptoValue → EncryptionAlgorithm → Except Error GoString)
    (intent : IDPIntentWriteModel) (alg : EncryptionAlgorithm) (value : CryptoValue)
    (err : Error) (hv : intent.IDPAccessToken = some value)
    (hd : DecryptString value alg = .error err) :
    intentToIDPInformationPb DecryptString intent alg = .error err := by
  unfold intentToIDPInformationPb
  simp only [hv, hd]

theorem intentToIDPInformationPb_decrypted
    (DecryptString : CryptoValue → EncryptionAlgorithm → Except Error GoString)
    (intent : IDPIntentWriteModel) (alg : EncryptionAlgorithm) (value : CryptoValue)
    (accessToken : GoString) (hv : intent.IDPAccessToken = some value)
    (hd : DecryptString value alg = .ok accessToken) :
    intentToIDPInformationPb DecryptString intent alg =
      .ok {
        Details := {
          Sequence := intent.ProcessedSequence
          ChangeDate := timestamppbNew intent.ChangeDate
          ResourceOwner := intent.ResourceOwner }
        IdpInformation := {
          Oauth := {
            AccessToken := accessToken
            IdToken := if intent.IDPIDToken ≠ [] then some intent.IDPIDToken else none }
          IdpInformation := intent.IDPUser } } := by
  unfold intentToIDPInformationPb
  simp only [hv, hd]

theorem intentToIDPInformationPb_absent
    (DecryptString : CryptoValue → EncryptionAlgorithm → Except Error GoString)
    (intent : IDPIntentWriteModel) (alg : EncryptionAlgorithm)
    (hv : intent.IDPAccessToken = none) :
    intentToIDPInformationPb DecryptString intent alg =
      .ok {
        Details := {
          Sequence := intent.ProcessedSequence
          ChangeDate := timestamppbNew intent.ChangeDate
          ResourceOwner := intent.ResourceOwner }
        IdpInformation := {
          Oauth := {
            AccessToken := []
            IdToken := if intent.IDPIDToken ≠ [] then some intent.IDPIDToken else none }
          IdpInformation := intent.IDPUser } } := by
  unfold intentToIDPInformationPb
  simp only [hv]

/-- C7: `intentToIDPInformationPb` fails, with the error of the decryption, exactly when an
access token is stored and its decryption fails.  Otherwise it returns a response whose
access token is the decryption of the stored access token (the empty string when none is
stored), whose ID token is present exactly when the stored ID token is non-empty and then
equals it, whose user payload is the stored payload, and whose details carry the write
model's `ProcessedSequence` and `ResourceOwner`. -/
theorem intentToIDPInformationPb_spec
    (DecryptString : CryptoValue → EncryptionAlgorithm → Except Error GoString)
    (intent : IDPIntentWriteModel) (alg : EncryptionAlgorithm) :
    (∀ err, intentToIDPInformationPb DecryptString intent alg = .error err ↔
      ∃ value, intent.IDPAccessToken = some value ∧ DecryptString value alg = .error err) ∧
    ((¬ ∃ value err, intent.IDPAccessToken = some value ∧
        DecryptString value alg = .error err) →
      ∃ resp, intentToIDPInformationPb DecryptString intent alg = .ok resp) ∧
    (∀ resp, intentToIDPInformationPb DecryptString intent alg = .ok resp →
      (∀ value, intent.IDPAccessToken = some value →
        DecryptString value alg = .ok resp.IdpInformation.Oauth.AccessToken) ∧
      (intent.IDPAccessToken = none → resp.IdpInformation.Oauth.AccessToken = []) ∧
      (resp.IdpInformation.Oauth.IdToken ≠ none ↔ intent.IDPIDToken ≠ []) ∧
      (∀ idToken, resp.IdpInformation.Oauth.IdToken = some idToken →
        idToken = intent.IDPIDToken) ∧
      resp.IdpInformation.IdpInformation = intent.IDPUser ∧
      resp.Details.Sequence = intent.ProcessedSequence ∧
      resp.Details.ResourceOwner = intent.ResourceOwner) := by
  cases hat : intent.IDPAccessToken with
  | none =>
    rw [intentToIDPInformationPb_absent DecryptString intent alg hat]
    refine ⟨fun err => by simp, fun _ => ⟨_, rfl⟩, fun resp h => ?_⟩
    simp only [Except.ok.injEq] at h
    subst h
    refine ⟨by simp, by simp, ?_, fun idToken h => ?_, rfl, rfl, rfl⟩
    · by_cases hid : intent.IDPIDToken = [] <;> simp [hid]
    · by_cases hid : intent.IDPIDToken = []
      · simp [hid] at h
      · simp [hid] at h
        exact h.symm
  | some value =>
    cases hd : DecryptString value alg with
    | error e =>
      rw [intentToIDPInformationPb_error DecryptString intent alg value e hat hd]
      refine ⟨fun err => by simp [hd], fun hno => ?_, fun resp h => by cases h⟩
      exact absurd ⟨value, e, rfl, hd⟩ hno
    | ok accessToken =>
      rw [intentToIDPInformationPb_decrypted DecryptString intent alg value accessToken hat hd]
      refine ⟨fun err => by simp [hd], fun _ => ⟨_, rfl⟩, fun resp h => ?_⟩
      simp only [Except.ok.injEq] at h
      subst h
      refine ⟨by simp [hd], by simp, ?_, fun idToken h => ?_, rfl, rfl, rfl⟩
      · by_cases hid : intent.IDPIDToken = [] <;> simp [hid]
      · by_cases hid : intent.IDPIDToken = []
        · simp [hid] at h
        · simp [hid] at h
          exact h.symm

/-- The response for the succeeded intent `intent-123`, and the failure for the same intent
when its stored access token has been tampered with. -/
theorem intentToIDPInformationPb_spec_witness :
    (∃ resp, intentToIDPInformationPb sampleDecryptString succeededIntent sampleAlg =
        .ok resp ∧
      resp.IdpInformation.Oauth.AccessToken = ascii "access" ∧
      resp.IdpInformation.Oauth.IdToken = some (ascii "id-token") ∧
      resp.Details.Sequence = 2) ∧
    intentToIDPInformationPb sampleDecryptString
        { succeededIntent with
          IDPAccessToken := some {
            Algorithm := ascii "sample", KeyID := ascii "key-1", Crypted := [0x00, 0x01] } }
        sampleAlg =
      .error (.foreign "cipher: message authentication failed") :=
  ⟨⟨_, rfl, rfl, rfl,
      ((intentToIDPInformationPb_spec sampleDecryptString succeededIntent sampleAlg).2.2
        _ rfl).2.2.2.2.2.1⟩,
    ((intentToIDPInformationPb_spec sampleDecryptString _ sampleAlg).1 _).2 ⟨_, rfl, rfl⟩⟩

/-! ## The organisation IDP event family -/

/-- C9: the event family has exactly eleven type tags, pairwise distinct: for each of the
provider types oauth, oidc, jwt, google and ldap the tag `org.idp.<provider>.added`
followed by the tag `org.idp.<provider>.changed`, and the shared tag `org.idp.removed`. -/
theorem eventTypeConstants_spec :
    eventTypeConstants.length = 11 ∧ eventTypeConstants.Nodup ∧
    providerTypes.length = 5 ∧ providerTypes.Nodup ∧
    eventTypeConstants =
      providerTypes.flatMap (fun provider =>
        ["org.idp." ++ provider ++ ".added", "org.idp." ++ provider ++ ".changed"]) ++
      ["org.idp.removed"] := by
  decide


/-- C10: each of the eleven constructors hands to the `idp` constructor of its own provider
and kind the base event built by `eventstore.NewBaseEventForPush` for the context and
aggregate it was given and with its own type tag, and returns the result wrapped.  A Changed
constructor returns an error, and no event, exactly when the `idp` Changed constructor
returns that error, and otherwise returns the wrapped event. -/
theorem constructors_stamp_own_tag (I : Imports) (ctx : I.Context) (aggregate : I.Aggregate) :
    (∀ (id name clientID : GoString) (clientSecret : Option CryptoValue)
        (authorizationEndpoint tokenEndpoint userEndpoint idAttribute : GoString)
        (scopes : List GoString) (options : I.Options),
      (Org.NewOAuthIDPAddedEvent I ctx aggregate id name clientID clientSecret
          authorizationEndpoint tokenEndpoint userEndpoint idAttribute scopes
          options).OAuthIDPAddedEvent =
        I.NewOAuthIDPAddedEvent (I.NewBaseEventForPush ctx aggregate "org.idp.oauth.added")
          id name clientID clientSecret authorizationEndpoint tokenEndpoint userEndpoint
          idAttribute scopes options) ∧
    (∀ (id : GoString) (changes : List I.OAuthIDPChanges),
      (∀ err, Org.NewOAuthIDPChangedEvent I ctx aggregate id changes = .error err ↔
        I.NewOAuthIDPChangedEvent (I.NewBaseEventForPush ctx aggregate "org.idp.oauth.changed")
          id changes = .error err) ∧
      (∀ event, Org.NewOAuthIDPChangedEvent I ctx aggregate id changes = .ok event ↔
        I.NewOAuthIDPChangedEvent (I.NewBaseEventForPush ctx aggregate "org.idp.oauth.changed")
          id changes = .ok event.OAuthIDPChangedEvent)) ∧
    (∀ (id name issuer clientID : GoString) (clientSecret : Option CryptoValue)
        (scopes : List GoString) (options : I.Options),
      (Org.NewOIDCIDPAddedEvent I ctx aggregate id name issuer clientID clientSecret scopes
          options).OIDCIDPAddedEvent =
        I.NewOIDCIDPAddedEvent (I.NewBaseEventForPush ctx aggregate "org.idp.oidc.added")
          id name issuer clientID clientSecret scopes options) ∧
    (∀ (id : GoString) (changes : List I.OIDCIDPChanges),
      (∀ err, Org.NewOIDCIDPChangedEvent I ctx aggregate id changes = .error err ↔
        I.NewOIDCIDPChangedEvent (I.NewBaseEventForPush ctx aggregate "org.idp.oidc.changed")
          id changes = .error err) ∧
      (∀ event, Org.NewOIDCIDPChangedEvent I ctx aggregate id changes = .ok event ↔
        I.NewOIDCIDPChangedEvent (I.NewBaseEventForPush ctx aggregate "org.idp.oidc.changed")
          id changes = .ok event.OIDCIDPChangedEvent)) ∧
    (∀ (id name issuer jwtEndpoint keysEndpoint headerName : GoString) (options : I.Options),
      (Org.NewJWTIDPAddedEvent I ctx aggregate id name issuer jwtEndpoint keysEndpoint
          headerName options).JWTIDPAddedEvent =
        I.NewJWTIDPAddedEvent (I.NewBaseEventForPush ctx aggregate "org.idp.jwt.added")
          id name issuer jwtEndpoint keysEndpoint headerName options) ∧
    (∀ (id : GoString) (changes : List I.JWTIDPChanges),
      (∀ err, Org.NewJWTIDPChangedEvent I ctx aggregate id changes = .error err ↔
        I.NewJWTIDPChangedEvent (I.NewBaseEventForPush ctx aggregate "org.idp.jwt.changed")
          id changes = .error err) ∧
      (∀ event, Org.NewJWTIDPChangedEvent I ctx aggregate id changes = .ok event ↔
        I.NewJWTIDPChangedEvent (I.NewBaseEventForPush ctx aggregate "org.idp.jwt.changed")
          id changes = .ok event.JWTIDPChangedEvent)) ∧
    (∀ (id name clientID : GoString) (clientSecret : Option CryptoValue)
        (scopes : List GoString) (options : I.Options),
      (Org.NewGoogleIDPAddedEvent I ctx aggregate id name clientID clientSecret scopes
          options).GoogleIDPAddedEvent =
        I.NewGoogleIDPAddedEvent (I.NewBaseEventForPush ctx aggregate "org.idp.google.added")
          id name clientID clientSecret scopes options) ∧
    (∀ (id : GoString) (changes : List I.GoogleIDPChanges),
      (∀ err, Org.NewGoogleIDPChangedEvent I ctx aggregate id changes = .error err ↔
        I.NewGoogleIDPChangedEvent (I.NewBaseEventForPush ctx aggregate "org.idp.google.changed")
          id changes = .error err) ∧
      (∀ event, Org.NewGoogleIDPChangedEvent I ctx aggregate id changes = .ok event ↔
        I.NewGoogleIDPChangedEvent (I.NewBaseEventForPush ctx aggregate "org.idp.google.changed")
          id changes = .ok event.GoogleIDPChangedEvent)) ∧
    (∀ (id name host port : GoString) (tls : Bool)
        (baseDN userObjectClass userUniqueAttribute admin : GoString)
        (password : Option CryptoValue) (attributes : I.LDAPAttributes) (options : I.Options),
      (Org.NewLDAPIDPAddedEvent I ctx aggregate id name host port tls baseDN userObjectClass
          userUniqueAttribute admin password attributes options).LDAPIDPAddedEvent =
        I.NewLDAPIDPAddedEvent (I.NewBaseEventForPush ctx aggregate "org.idp.ldap.added")
          id name host port tls baseDN userObjectClass userUniqueAttribute admin password
          attributes options) ∧
    (∀ (id oldName : GoString) (changes : List I.LDAPIDPChanges),
      (∀ err, Org.NewLDAPIDPChangedEvent I ctx aggregate id oldName changes = .error err ↔
        I.NewLDAPIDPChangedEvent (I.NewBaseEventForPush ctx aggregate "org.idp.ldap.changed")
          id oldName changes = .error err) ∧
      (∀ event, Org.NewLDAPIDPChangedEvent I ctx aggregate id oldName changes = .ok event ↔
        I.NewLDAPIDPChangedEvent (I.NewBaseEventForPush ctx aggregate "org.idp.ldap.changed")
          id oldName changes = .ok event.LDAPIDPChangedEvent)) ∧
    (∀ id : GoString,
      (Org.NewIDPRemovedEvent I ctx aggregate id).RemovedEvent =
        I.NewRemovedEvent (I.NewBaseEventForPush ctx aggregate "org.idp.removed") id) := by
  refine ⟨fun _ _ _ _ _ _ _ _ _ _ => rfl, fun id changes => ?_, fun _ _ _ _ _ _ _ => rfl,
    fun id changes => ?_, fun _ _ _ _ _ _ _ => rfl, fun id changes => ?_,
    fun _ _ _ _ _ _ => rfl, fun id changes => ?_, fun _ _ _ _ _ _ _ _ _ _ _ _ => rfl,
    fun id oldName changes => ?_, fun _ => rfl⟩
  · unfold Org.NewOAuthIDPChangedEvent OAuthIDPChangedEventType
    cases I.NewOAuthIDPChangedEvent (I.NewBaseEventForPush ctx aggregate "org.idp.oauth.changed")
      id changes with
    | error e => simp
    | ok a =>
      refine ⟨fun err => by simp, fun event => ?_⟩
      cases event
      simp
  · unfold Org.NewOIDCIDPChangedEvent OIDCIDPChangedEventType
    cases I.NewOIDCIDPChangedEvent (I.NewBaseEventForPush ctx aggregate "org.idp.oidc.changed")
      id changes with
    | error e => simp
    | ok a =>
      refine ⟨fun err => by simp, fun event => ?_⟩
      cases event
      simp
  · unfold Org.NewJWTIDPChangedEvent JWTIDPChangedEventType
    cases I.NewJWTIDPChangedEvent (I.NewBaseEventForPush ctx aggregate "org.idp.jwt.changed")
      id changes with
    | error e => simp
    | ok a =>
      refine ⟨fun err => by simp, fun event => ?_⟩
      cases event
      simp
  · unfold Org.NewGoogleIDPChangedEvent GoogleIDPChangedEventType
    cases I.NewGoogleIDPChangedEvent (I.NewBaseEventForPush ctx aggregate "org.idp.google.changed")
      id changes with
    | error e => simp
    | ok a =>
      refine ⟨fun err => by simp, fun event => ?_⟩
      cases event
      simp
  · unfold Org.NewLDAPIDPChangedEvent LDAPIDPChangedEventType
    cases I.NewLDAPIDPChangedEvent (I.NewBaseEventForPush ctx aggregate "org.idp.ldap.changed")
      id oldName changes with
    | error e => simp
    | ok a =>
      refine ⟨fun err => by simp, fun event => ?_⟩
      cases event
      simp

/-- The constructors on the recording stand-in: the events of the aggregate `org-1` carry
that aggregate and the tag of their own provider and kind, and a Changed constructor fails
exactly as the `idp` constructor does, here on an empty list of changes. -/
theorem constructors_stamp_own_tag_witness :
    (Org.NewOAuthIDPAddedEvent recordingImports sampleCtx (ascii "org-1") (ascii "idp-1")
        (ascii "name") (ascii "client") none [] [] [] [] [] ()).OAuthIDPAddedEvent =
      { aggregate := ascii "org-1", eventType := "org.idp.oauth.added" } ∧
    Org.NewGoogleIDPChangedEvent recordingImports sampleCtx (ascii "org-1") (ascii "idp-1")
        [()] =
      .ok { GoogleIDPChangedEvent :=
        { aggregate := ascii "org-1", eventType := "org.idp.google.changed" } } ∧
    Org.NewLDAPIDPChangedEvent recordingImports sampleCtx (ascii "org-1") (ascii "idp-1")
        (ascii "old") [] =
      .error (ThrowPreconditionFailed none "IDP-SDf3f" "Errors.NoChangesFound") ∧
    (Org.NewIDPRemovedEvent recordingImports sampleCtx (ascii "org-1")
        (ascii "idp-1")).RemovedEvent =
      { aggregate := ascii "org-1", eventType := "org.idp.removed" } :=
  ⟨(constructors_stamp_own_tag recordingImports sampleCtx (ascii "org-1")).1
      _ _ _ _ _ _ _ _ _ _,
    ((constructors_stamp_own_tag recordingImports sampleCtx
      (ascii "org-1")).2.2.2.2.2.2.2.1 _ _).2
      { GoogleIDPChangedEvent :=
        { aggregate := ascii "org-1", eventType := "org.idp.google.changed" } } |>.2 rfl,
    ((constructors_stamp_own_tag recordingImports sampleCtx
      (ascii "org-1")).2.2.2.2.2.2.2.2.2.1 _ _ _).1 _ |>.2 rfl,
    (constructors_stamp_own_tag recordingImports sampleCtx (ascii "org-1")).2.2.2.2.2.2.2.2.2.2
      _⟩

end Zitadel
